import Mathlib

/-! # terraform-provider-confluentcloud: connector and provider logic

A shallow embedding of `ccloud/resource_connector.go`, `ccloud/provider.go` and
`ccloud/resource_environment.go`.

Go strings are embedded as Lean `String`s and inspected through their list of
characters.  Every string operation the source uses (`==`, `strings.HasPrefix`,
`strings.Contains`, `strings.Split` with the one-byte separator `/`, and the regular
expression `\*+`) gives the same answer on the UTF-8 bytes and on the code points, so
nothing is lost by working on characters.

Stateful code is written in state-passing style: a function takes the resource
descriptor (`*schema.ResourceData`) or the world and returns the updated one
together with its Go return value.
-/

namespace Ccloud

/-! ## Go standard library helpers used by the source -/

/-- Go `strings.HasPrefix(s, prefix)`. -/
def stringsHasPrefix (s pre : String) : Bool :=
  pre.data.isPrefixOf s.data

/-- Tells whether `sub` occurs in `s` starting at some position (on characters). -/
def containsChars (sub : List Char) : List Char → Bool
  | [] => sub.isPrefixOf []
  | c :: cs => sub.isPrefixOf (c :: cs) || containsChars sub cs

/-- Go `strings.Contains(s, substr)`. -/
def stringsContains (s sub : String) : Bool :=
  containsChars sub.data s.data

/-- Number of leading `*` characters: what the greedy `\*+` consumes at a position. -/
def leadingStars : List Char → Nat
  | [] => 0
  | c :: cs => if c = '*' then leadingStars cs + 1 else 0

/-- The pattern `\*+` matches at the start of the input: at least one `*` is consumed. -/
def starsMatchHere (s : List Char) : Bool :=
  decide (1 ≤ leadingStars s)

/-- Unanchored search for the pattern `\*+`: try every start position, left to right. -/
def starsSearch : List Char → Bool
  | [] => starsMatchHere []
  | c :: cs => starsMatchHere (c :: cs) || starsSearch cs

/-- Go `regexp.MatchString("\\*+", s)`; the pattern compiles, so the error is always nil
and only the boolean is kept (the source discards the error too). -/
def regexpMatchStars (s : String) : Bool :=
  starsSearch s.data

/-- Splits at every occurrence of `sep`; the result always has one more part than there
are separators. -/
def splitChars (sep : Char) : List Char → List (List Char)
  | [] => [[]]
  | c :: cs =>
    if c = sep then [] :: splitChars sep cs
    else
      match splitChars sep cs with
      | [] => [[c]]
      | p :: ps => (c :: p) :: ps

/-- Go `strings.Split(s, "/")`. -/
def stringsSplitSlash (s : String) : List String :=
  (splitChars '/' s.data).map String.mk

/-! ## resource_connector.go: ignore list and the `config` diff suppressor -/

/-- The source function `ignoreConnectorConfigs`. -/
def ignoreConnectorConfigs : List String :=
  [ "config.kafka.endpoint",
    "config.kafka.region",
    "config.kafka.dedicated",
    "config.cloud.provider",
    "config.cloud.environment",
    "config.valid.kafka.api.key",
    "config.schema.registry.url" ]

/-- The loop `for _, ik := range ignoreConnectorConfigs() { if ik == k { return true } }`:
true when the loop returns, false when it falls through. -/
def ignoreLoop (k : String) : List String → Bool
  | [] => false
  | ik :: rest => if ik = k then true else ignoreLoop k rest

/-- The `DiffSuppressFunc` of the `config` attribute in `connectorResource`.  The fourth
argument of the Go closure (the resource data) is never used by it and is left out. -/
def configDiffSuppress (k old new : String) : Bool :=
  let _ := new
  if ignoreLoop k ignoreConnectorConfigs then true
  else if stringsHasPrefix k "config.internal." then true
  else
    let masked := regexpMatchStars old
    if masked then true
    else false

/-! ## Go maps, resource data, diagnostics -/

/-- A Go `map[string]string` (also the `map[string]interface{}` of a `TypeMap` attribute,
whose values the source asserts to be strings): finitely many entries, keys distinct.
The order of `entries` stands for the unspecified order in which `range` visits them. -/
abbrev GoMap := AList (fun _ : String => String)

/-- The loop `for key, value := range src { dst[key] = value.(string) }`. -/
def rangeAssign (src dst : GoMap) : GoMap :=
  src.entries.foldl (fun acc e => acc.insert e.1 e.2) dst

/-- The `configStrings` map built by `connectorCreate` and `connectorUpdate`: start empty,
copy `config`, then copy `config_sensitive`. -/
def mergeConfig (config configSensitive : GoMap) : GoMap :=
  rangeAssign configSensitive (rangeAssign config ∅)

/-- Byte-wise comparison of two strings, as Go orders string keys. -/
def charsLt : List Char → List Char → Bool
  | [], [] => false
  | [], _ :: _ => true
  | _ :: _, [] => false
  | a :: as, b :: bs =>
    if a.toNat < b.toNat then true
    else if b.toNat < a.toNat then false
    else charsLt as bs

/-- Insertion of one entry into a list sorted by key. -/
def insertByKey (e : String × String) : List (String × String) → List (String × String)
  | [] => [e]
  | x :: xs => if charsLt e.1.data x.1.data then e :: x :: xs else x :: insertByKey e xs

/-- Entries sorted by key. -/
def sortByKey : List (String × String) → List (String × String)
  | [] => []
  | e :: es => insertByKey e (sortByKey es)

/-- Joins the parts with a single space. -/
def joinSpace : List String → String
  | [] => ""
  | [a] => a
  | a :: b :: rest => a ++ " " ++ joinSpace (b :: rest)

/-- Go `fmt` verb `%v` on a map with string keys and string values:
`map[k1:v1 k2:v2]`, keys in sorted order. -/
def fmtMap (m : GoMap) : String :=
  "map[" ++ joinSpace ((sortByKey (m.entries.map fun e => (e.1, e.2))).map
    fun e => e.1 ++ ":" ++ e.2) ++ "]"

/-- Diagnostics returned to the host: the summaries of the error diagnostics. -/
abbrev Diagnostics := List String

/-- SDK `diag.FromErr`: nil for a nil error, otherwise one error diagnostic whose
summary is the error message. -/
def diagFromErr : Option String → Diagnostics
  | none => []
  | some e => [e]

/-- A value handed to `d.Set`. -/
inductive Value where
  | str (s : String)
  | map (m : GoMap)

/-- The connector resource descriptor (`*schema.ResourceData` under the schema of
`connectorResource`): the identifier, the five attributes, and the create timeout
(`d.Timeout(schema.TimeoutCreate)`, 20 minutes unless the configuration overrides it),
in nanoseconds. -/
structure ResourceData where
  id : String
  name : String
  environment_id : String
  cluster_id : String
  config : GoMap
  config_sensitive : GoMap
  timeoutCreate : Nat

/-- The call `d.SetId(v)`. -/
def ResourceData.setId (d : ResourceData) (v : String) : ResourceData :=
  { d with id := v }

/-- The call `d.Set(key, value)` under the connector schema: it fails for a key the schema
does not have and for a value of the wrong type. -/
def ResourceData.set (d : ResourceData) (key : String) (v : Value) :
    Except String ResourceData :=
  if key = "name" then
    match v with
    | .str s => .ok { d with name := s }
    | .map _ => .error ("name: expected a string")
  else if key = "environment_id" then
    match v with
    | .str s => .ok { d with environment_id := s }
    | .map _ => .error ("environment_id: expected a string")
  else if key = "cluster_id" then
    match v with
    | .str s => .ok { d with cluster_id := s }
    | .map _ => .error ("cluster_id: expected a string")
  else if key = "config" then
    match v with
    | .map m => .ok { d with config := m }
    | .str _ => .error ("config: expected a map")
  else if key = "config_sensitive" then
    match v with
    | .map m => .ok { d with config_sensitive := m }
    | .str _ => .error ("config_sensitive: expected a map")
  else .error ("Invalid address to set: " ++ key)

/-- The environment resource descriptor: the identifier and the `name` attribute. -/
structure EnvironmentData where
  id : String
  name : String

/-- The call `d.Set(key, value)` under the environment schema. -/
def EnvironmentData.set (d : EnvironmentData) (key : String) (v : Value) :
    Except String EnvironmentData :=
  if key = "name" then
    match v with
    | .str s => .ok { d with name := s }
    | .map _ => .error ("name: expected a string")
  else .error ("Invalid address to set: " ++ key)

/-! ## resource_connector.go: import -/

/-- The message of the format error of `connectorImport`. -/
def importFormatError : String :=
  "invalid format for connector import: expected '<env ID>/<cluster ID>/<name>'"

/-- The source function `connectorImport`.  Returns the descriptor as the call leaves it
and the Go result: the slice of descriptors, or the error. -/
def connectorImport (d : ResourceData) : ResourceData × Except String (List ResourceData) :=
  let idsAndName := d.id
  let parts := stringsSplitSlash idsAndName
  match parts with
  | [p0, p1, p2] =>
    let d1 := d.setId p2
    match d1.set "environment_id" (.str p0) with
    | .error e => (d1, .error e)
    | .ok d2 =>
      match d2.set "cluster_id" (.str p1) with
      | .error e => (d2, .error e)
      | .ok d3 =>
        match d3.set "name" (.str p2) with
        | .error e => (d3, .error e)
        | .ok d4 => (d4, .ok [d4])
  | _ => (d, .error importFormatError)

/-! ## resource_connector.go and resource_environment.go: read -/

/-- What `GetConnector` returns on success (the fields the source reads). -/
structure Connector where
  name : String
  config : GoMap

/-- What `GetEnvironment` returns on success (the fields the source reads). -/
structure Environment where
  id : String
  name : String

/-- The source function `connectorRead`; `getConnector` is the remote client. -/
def connectorRead (getConnector : String → String → String → Except String Connector)
    (d : ResourceData) : ResourceData × Diagnostics :=
  let accountID := d.environment_id
  let clusterID := d.cluster_id
  let name := d.id
  match getConnector accountID clusterID name with
  | .error e => (d, diagFromErr (some e))
  | .ok connector =>
    match d.set "config" (.map connector.config) with
    | .error e => (d, diagFromErr (some e))
    | .ok d1 =>
      match d1.set "name" (.str connector.name) with
      | .error e => (d1, diagFromErr (some e))
      | .ok d2 => (d2, diagFromErr none)

/-- The source function `environmentRead`; `getEnvironment` is the remote client. -/
def environmentRead (getEnvironment : String → Except String Environment)
    (d : EnvironmentData) : EnvironmentData × Diagnostics :=
  match getEnvironment d.id with
  | .error e => (d, diagFromErr (some e))
  | .ok env =>
    match d.set "name" (.str env.name) with
    | .error e => (d, diagFromErr (some e))
    | .ok d1 => (d1, [])

/-! ## The SDK retry helper -/

/-- SDK `*resource.RetryError`, as built by `resource.RetryableError` and
`resource.NonRetryableError`. -/
inductive RetryError where
  | retryable (err : String)
  | nonRetryable (err : String)

/-- The error reported when the timeout elapses before any attempt left an error. -/
def retryTimeoutMessage : String :=
  "timeout while waiting for state to become 'success'"

/-- Modelled from the spec: `resource.RetryContext` of the Terraform plugin SDK, which is
not part of the sources.  The callback `f` is attempted again and again: a nil result ends
the loop with no error, a non-retryable error is returned at once, a retryable error leads
to another attempt as long as the deadline has not passed on the clock `now`; once it has,
the loop stops and returns the last observed error.  `fuel` bounds the number of attempts
that are unfolded: the result is `none` while the loop would still be running. -/
def retryContext {σ : Type} (now : σ → Nat) (deadline : Nat)
    (f : σ → σ × Option RetryError) : Nat → Option String → σ → σ × Option (Option String)
  | 0, _, s => (s, none)
  | fuel + 1, last, s =>
    if deadline ≤ now s then (s, some (some (last.getD retryTimeoutMessage)))
    else
      match f s with
      | (s1, none) => (s1, some none)
      | (s1, some (RetryError.nonRetryable e)) => (s1, some (some e))
      | (s1, some (RetryError.retryable e)) => retryContext now deadline f fuel (some e) s1

/-! ## resource_connector.go: create and update -/

/-- The arguments of one `CreateConnector` or `UpdateConnectorConfig` call. -/
structure ConnectorCall where
  accountID : String
  clusterID : String
  name : String
  config : GoMap

/-- The remote client as `connectorCreate` sees it: the error (nil for success) of the
`k`-th `CreateConnector` call, and the time in nanoseconds that passes from the start of
the `k`-th attempt to the start of the next one. -/
structure ConnectorClient where
  createConnector : Nat → ConnectorCall → Option String
  createLatency : Nat → Nat

/-- The world of a create: the descriptor, the clock in nanoseconds, and the
`CreateConnector` calls made so far, oldest first. -/
structure CreateWorld where
  d : ResourceData
  clock : Nat
  calls : List ConnectorCall

/-- The message built by
`fmt.Errorf("createConnector failed %s, %v, %s", name, config, err)`. -/
def createFailedMessage (name : String) (config : GoMap) (err : String) : String :=
  "createConnector failed " ++ name ++ ", " ++ fmtMap config ++ ", " ++ err

/-- The closure that `connectorCreate` passes to `resource.RetryContext`. -/
def createStep (c : ConnectorClient) (name : String) (config : GoMap)
    (accountID clusterID : String) (configStrings : GoMap) (w : CreateWorld) :
    CreateWorld × Option RetryError :=
  let call : ConnectorCall := ⟨accountID, clusterID, name, configStrings⟩
  let k := w.calls.length
  let err := c.createConnector k call
  let w1 : CreateWorld :=
    { w with calls := w.calls ++ [call], clock := w.clock + c.createLatency k }
  match err with
  | some e =>
    if !stringsContains e "provisioning" then
      (w1, some (RetryError.nonRetryable (createFailedMessage name config e)))
    else
      (w1, some (RetryError.retryable
        "API Key is still being provisioned, waiting for provisioning"))
  | none => ({ w1 with d := w1.d.setId name }, none)

/-- The source function `connectorCreate`, run on the descriptor `d` with the clock at 0
and no call made yet.  The diagnostics are `none` while the retry loop has not returned
within `fuel` attempts. -/
def connectorCreate (c : ConnectorClient) (fuel : Nat) (d : ResourceData) :
    CreateWorld × Option Diagnostics :=
  let name := d.name
  let config := d.config
  let configSensitive := d.config_sensitive
  let accountID := d.environment_id
  let clusterID := d.cluster_id
  let configStrings := mergeConfig config configSensitive
  let r := retryContext CreateWorld.clock d.timeoutCreate
    (createStep c name config accountID clusterID configStrings) fuel none
    { d := d, clock := 0, calls := [] }
  (r.1, r.2.map diagFromErr)

/-- Go `int` and `time.Duration` arithmetic: 64-bit two's complement wrap-around. -/
def wrapInt64 (x : Int) : Int :=
  (x + 2 ^ 63) % 2 ^ 64 - 2 ^ 63

/-- Go `time.Second`, in nanoseconds. -/
def timeSecond : Int := 1000000000

/-- Go `time.Millisecond`, in nanoseconds. -/
def timeMillisecond : Int := 1000000

/-- Go `time.Minute`, in nanoseconds. -/
def timeMinute : Nat := 60000000000

/-- The remote client and the random source as `providerConfigure` sees them: the error
(nil for success) of the `k`-th `Login` call, the time in nanoseconds the `k`-th call
takes, and the result of the `k`-th call `rand.Intn(1001)`. -/
structure LoginClient where
  login : Nat → Option String
  latency : Nat → Nat
  intn1001 : Nat → Fin 1001

/-- The world of `providerConfigure`: the clock in nanoseconds, the number of `Login`
calls made, the local variable `wait`, the number of random draws made, and the durations
handed to `time.Sleep`, oldest first. -/
structure LoginWorld where
  clock : Nat
  loginCalls : Nat
  wait : Int
  draws : Nat
  sleeps : List Int

/-- The expression
`time.Duration(wait)*time.Second + time.Duration(randomNumberMilliseconds)`. -/
def timeSleepOf (wait : Int) (randomNumberMilliseconds : Nat) : Int :=
  wrapInt64 (wrapInt64 (wait * timeSecond) + (randomNumberMilliseconds : Int))

/-- The closure that `providerConfigure` passes to `resource.RetryContext`. -/
def loginStep (c : LoginClient) (w : LoginWorld) : LoginWorld × Option RetryError :=
  let err := c.login w.loginCalls
  let w1 : LoginWorld :=
    { w with loginCalls := w.loginCalls + 1, clock := w.clock + c.latency w.loginCalls }
  match err with
  | some e =>
    if stringsContains e "Exceeded rate limit" then
      let randomNumberMilliseconds := (c.intn1001 w1.draws).val
      let timeSleep := timeSleepOf w1.wait randomNumberMilliseconds
      let w2 : LoginWorld :=
        { w1 with
          draws := w1.draws + 1
          sleeps := w1.sleeps ++ [timeSleep]
          clock := w1.clock + timeSleep.toNat
          wait := wrapInt64 (w1.wait * 2) }
      (w2, some (RetryError.retryable e))
    else (w1, some (RetryError.nonRetryable e))
  | none => (w1, none)

/-- The source function `providerConfigure`, run with the clock at 0.  The client value it
returns is built the same way on every path and is left out; the diagnostics are `none`
while the retry loop has not returned within `fuel` attempts. -/
def providerConfigure (c : LoginClient) (fuel : Nat) : LoginWorld × Option Diagnostics :=
  let wait : Int := 2
  let loginErr := c.login 0
  let w1 : LoginWorld :=
    { clock := c.latency 0, loginCalls := 1, wait := wait, draws := 0, sleeps := [] }
  match loginErr with
  | none => (w1, some (diagFromErr none))
  | some _ =>
    let r := retryContext LoginWorld.clock (w1.clock + 30 * timeMinute) (loginStep c)
      fuel none w1
    (r.1, r.2.map diagFromErr)

/-- The arguments of every `CreateConnector` call that `connectorCreate` makes for the
descriptor `d`. -/
def createCallOf (d : ResourceData) : ConnectorCall :=
  ⟨d.environment_id, d.cluster_id, d.name, mergeConfig d.config d.config_sensitive⟩

/-- The closure of `connectorCreate` for the descriptor `d`, with the locals it captures. -/
def createStepOf (c : ConnectorClient) (d : ResourceData) :
    CreateWorld → CreateWorld × Option RetryError :=
  createStep c d.name d.config d.environment_id d.cluster_id
    (mergeConfig d.config d.config_sensitive)

/-- The sleeps of the first `n` rate-limited retries as the doubling rule gives them: the
`i`-th is `2 * 2 ^ i` seconds plus the `i`-th random draw, taken as nanoseconds. -/
def doublingSleeps (c : LoginClient) (n : Nat) : List Int :=
  (List.range n).map fun i => ((2 * 2 ^ i * 1000000000 + (c.intn1001 i).val : Nat) : Int)

/-- What holds in `providerConfigure` whenever an attempt of the retry loop is about to
start: `n` sleeps so far, one draw and one rate-limited login per sleep, `wait` doubled
`n` times, at most ten sleeps, and the clock past the sum of the base waits. -/
def LoginLoopInv (c : LoginClient) (s : LoginWorld) : Prop :=
  s.draws = s.sleeps.length ∧
  s.loginCalls = s.sleeps.length + 1 ∧
  s.sleeps.length ≤ 10 ∧
  s.wait = ((2 * 2 ^ s.sleeps.length : Nat) : Int) ∧
  s.sleeps = doublingSleeps c s.sleeps.length ∧
  c.latency 0 + 2 ^ (s.sleeps.length + 1) * 1000000000 ≤ s.clock + 2000000000 ∧
  (∀ i, 1 ≤ i → i < s.loginCalls →
    ∃ e, c.login i = some e ∧ stringsContains e "Exceeded rate limit" = true)

/-- What holds of the world `providerConfigure` ends in. -/
def LoginFinal (c : LoginClient) (s : LoginWorld) : Prop :=
  s.sleeps.length ≤ 10 ∧
  s.sleeps = doublingSleeps c s.sleeps.length ∧
  (s.loginCalls = s.sleeps.length + 1 ∨ s.loginCalls = s.sleeps.length + 2) ∧
  (∀ i, 1 ≤ i → i + 1 < s.loginCalls →
    ∃ e, c.login i = some e ∧ stringsContains e "Exceeded rate limit" = true)

/-! ## Sample inputs -/

/-- Sample descriptor whose identifier is the composite key `env-1/lkc-1/my-connector`. -/
def sampleImport : ResourceData :=
  { id := "env-1/lkc-1/my-connector", name := "", environment_id := "", cluster_id := "",
    config := ∅, config_sensitive := ∅, timeoutCreate := 20 * timeMinute }

/-- Sample connector: one plain entry, one sensitive entry, the default create timeout. -/
def sampleConnector : ResourceData :=
  { id := "my-connector", name := "my-connector", environment_id := "env-1",
    cluster_id := "lkc-1",
    config := (∅ : GoMap).insert "topic" "orders",
    config_sensitive := (∅ : GoMap).insert "password" "hunter2",
    timeoutCreate := 20 * timeMinute }

/-- Sample environment descriptor. -/
def sampleEnvironment : EnvironmentData :=
  { id := "env-1", name := "staging" }

/-- A remote that answers two creates with a provisioning error and then succeeds; each
attempt takes one second. -/
def clientProvisioningTwice : ConnectorClient :=
  { createConnector := fun k _ =>
      if k < 2 then some "cluster is still provisioning" else none
    createLatency := fun _ => 1000000000 }

/-- A remote that rejects every create with an error that is not about provisioning. -/
def clientRejecting : ConnectorClient :=
  { createConnector := fun _ _ => some "boom"
    createLatency := fun _ => 1000000000 }

/-- A remote that rejects every login with bad credentials. -/
def loginBadCredentials : LoginClient :=
  { login := fun _ => some "invalid credentials"
    latency := fun _ => 1000000
    intn1001 := fun _ => 0 }

/-- A remote that rate-limits every login; the random source always draws 1000. -/
def loginRateLimited : LoginClient :=
  { login := fun _ => some "429: Exceeded rate limit"
    latency := fun _ => 1000000
    intn1001 := fun _ => 1000 }

/-! ## Lemmas on the string helpers -/

theorem ignoreLoop_eq_true_iff (k : String) (l : List String) :
    ignoreLoop k l = true ↔ k ∈ l := by
  induction l with
  | nil => simp [ignoreLoop]
  | cons ik rest ih =>
    by_cases h : ik = k
    · simp [ignoreLoop, h]
    · have h2 : ¬ k = ik := fun e => h e.symm
      simp [ignoreLoop, h, h2, ih]

theorem starsSearch_eq_true_iff (s : List Char) :
    starsSearch s = true ↔ '*' ∈ s := by
  induction s with
  | nil => simp [starsSearch, starsMatchHere, leadingStars]
  | cons c cs ih =>
    by_cases h : c = '*'
    · simp [starsSearch, starsMatchHere, leadingStars, h]
    · have h2 : ¬ '*' = c := fun e => h e.symm
      simp [starsSearch, starsMatchHere, leadingStars, h, h2, ih]

theorem stringsHasPrefix_iff (s pre : String) :
    stringsHasPrefix s pre = true ↔ ∃ rest : String, s = pre ++ rest := by
  unfold stringsHasPrefix
  rw [List.isPrefixOf_iff_prefix]
  constructor
  · rintro ⟨t, ht⟩
    exact ⟨⟨t⟩, String.ext (by simp [ht])⟩
  · rintro ⟨rest, rfl⟩
    exact ⟨rest.data, by simp⟩

theorem splitChars_length (sep : Char) (s : List Char) :
    (splitChars sep s).length = s.count sep + 1 := by
  induction s with
  | nil => simp [splitChars]
  | cons c cs ih =>
    by_cases h : c = sep
    · simp [splitChars, h, ih]
    · have hne : (splitChars sep cs) ≠ [] := by
        intro h0
        rw [h0] at ih
        simp at ih
      obtain ⟨p, ps, hp⟩ := List.exists_cons_of_ne_nil hne
      rw [hp] at ih
      simp [splitChars, h, hp, List.count_cons] at ih ⊢
      omega

theorem splitChars_of_not_mem (sep : Char) (s : List Char) (h : sep ∉ s) :
    splitChars sep s = [s] := by
  induction s with
  | nil => simp [splitChars]
  | cons c cs ih =>
    simp only [List.mem_cons, not_or] at h
    have hc : ¬ c = sep := fun e => h.1 e.symm
    simp [splitChars, hc, ih h.2]

theorem splitChars_append_sep (sep : Char) (a rest : List Char) (h : sep ∉ a) :
    splitChars sep (a ++ sep :: rest) = a :: splitChars sep rest := by
  induction a with
  | nil => simp [splitChars]
  | cons c cs ih =>
    simp only [List.mem_cons, not_or] at h
    have hc : ¬ c = sep := fun e => h.1 e.symm
    simp [splitChars, hc, ih h.2]

/-! ## C1: the diff suppressor -/

/-- C1: the `config` diff suppressor returns true exactly when the key is one of the seven
ignore-list keys, or starts with `config.internal.`, or the old value contains a `*`;
the new value never matters; the four sample triples evaluate as documented. -/
theorem configDiffSuppress_spec (k o n : String) :
    (configDiffSuppress k o n = true ↔
      (k ∈ ignoreConnectorConfigs ∨ (∃ rest : String, k = "config.internal." ++ rest) ∨
        '*' ∈ o.data)) ∧
    (configDiffSuppress k o n = false ↔
      ¬ (k ∈ ignoreConnectorConfigs ∨ (∃ rest : String, k = "config.internal." ++ rest) ∨
        '*' ∈ o.data)) ∧
    (∀ n2 : String, configDiffSuppress k o n2 = configDiffSuppress k o n) ∧
    ignoreConnectorConfigs.length = 7 ∧
    configDiffSuppress "config.kafka.region" "x" "y" = true ∧
    configDiffSuppress "config.internal.foo" "a" "b" = true ∧
    configDiffSuppress "config.topic" "****" "secret" = true ∧
    configDiffSuppress "config.topic" "old" "new" = false := by
  have key : configDiffSuppress k o n = true ↔
      (k ∈ ignoreConnectorConfigs ∨ (∃ rest : String, k = "config.internal." ++ rest) ∨
        '*' ∈ o.data) := by
    rw [← ignoreLoop_eq_true_iff, ← stringsHasPrefix_iff, ← starsSearch_eq_true_iff]
    unfold configDiffSuppress regexpMatchStars
    cases ignoreLoop k ignoreConnectorConfigs <;>
      cases stringsHasPrefix k "config.internal." <;>
      cases starsSearch o.data <;> simp
  refine ⟨key, ?_, fun _ => rfl, rfl, by decide, by decide, by decide, by decide⟩
  rw [← key]
  cases configDiffSuppress k o n <;> simp

/-! ## C2 and C3: import -/

theorem stringsSplitSlash_length (s : String) :
    (stringsSplitSlash s).length = s.data.count '/' + 1 := by
  simp [stringsSplitSlash, splitChars_length]

theorem stringsSplitSlash_three (e c n : String) (he : '/' ∉ e.data) (hc : '/' ∉ c.data)
    (hn : '/' ∉ n.data) : stringsSplitSlash (e ++ "/" ++ c ++ "/" ++ n) = [e, c, n] := by
  have h : (e ++ "/" ++ c ++ "/" ++ n).data = e.data ++ '/' :: (c.data ++ '/' :: n.data) := by
    simp [String.data_append]
  unfold stringsSplitSlash
  rw [h, splitChars_append_sep _ _ _ he, splitChars_append_sep _ _ _ hc,
    splitChars_of_not_mem _ _ hn]
  rfl

theorem connectorImport_of_three (d : ResourceData) (p0 p1 p2 : String)
    (h : stringsSplitSlash d.id = [p0, p1, p2]) :
    connectorImport d =
      ({ d with id := p2, environment_id := p0, cluster_id := p1, name := p2 },
        .ok [{ d with id := p2, environment_id := p0, cluster_id := p1, name := p2 }]) := by
  unfold connectorImport
  simp only [h]
  simp [ResourceData.set, ResourceData.setId]

theorem connectorImport_of_not_three (d : ResourceData)
    (h : (stringsSplitSlash d.id).length ≠ 3) :
    connectorImport d = (d, .error importFormatError) := by
  unfold connectorImport
  dsimp only
  generalize stringsSplitSlash d.id = parts at h
  rcases parts with _ | ⟨p0, _ | ⟨p1, _ | ⟨p2, _ | ⟨p3, ps⟩⟩⟩⟩
  · rfl
  · rfl
  · rfl
  · simp at h
  · rfl

/-- C2: for parts `e`, `c`, `n` without a slash, importing the identifier `e/c/n` succeeds,
sets `environment_id`, `cluster_id` and `name` to the three parts, sets the identifier to
the last part, and returns exactly that one descriptor. -/
theorem connectorImport_sets_fields (d : ResourceData) (e c n : String)
    (he : '/' ∉ e.data) (hc : '/' ∉ c.data) (hn : '/' ∉ n.data)
    (hid : d.id = e ++ "/" ++ c ++ "/" ++ n) :
    ∃ d2 : ResourceData, connectorImport d = (d2, .ok [d2]) ∧
      d2.environment_id = e ∧ d2.cluster_id = c ∧ d2.name = n ∧ d2.id = n ∧
      d2.config = d.config ∧ d2.config_sensitive = d.config_sensitive := by
  have h3 : stringsSplitSlash d.id = [e, c, n] := by
    rw [hid]; exact stringsSplitSlash_three e c n he hc hn
  exact ⟨_, connectorImport_of_three d e c n h3, rfl, rfl, rfl, rfl, rfl, rfl⟩

/-- Witness for C2 at the identifier `env-1/lkc-1/my-connector`. -/
theorem connectorImport_sets_fields_witness :
    ∃ d2 : ResourceData, connectorImport sampleImport = (d2, .ok [d2]) ∧
      d2.environment_id = "env-1" ∧ d2.cluster_id = "lkc-1" ∧ d2.name = "my-connector" ∧
      d2.id = "my-connector" ∧
      d2.config = sampleImport.config ∧ d2.config_sensitive = sampleImport.config_sensitive :=
  connectorImport_sets_fields sampleImport "env-1" "lkc-1" "my-connector"
    (by decide) (by decide) (by decide) (by decide)

/-- C3: `connectorImport` returns the format error exactly when the identifier does not
have two slashes (does not split into three parts); it then returns no descriptor and
leaves the descriptor as it was; otherwise it returns one descriptor.  The key `a/b` is
rejected. -/
theorem connectorImport_formatError_iff (d : ResourceData) :
    ((connectorImport d).2 = .error importFormatError ↔ d.id.data.count '/' ≠ 2) ∧
    ((connectorImport d).2 = .error importFormatError ↔
      (stringsSplitSlash d.id).length ≠ 3) ∧
    (d.id.data.count '/' ≠ 2 → connectorImport d = (d, .error importFormatError)) ∧
    (d.id.data.count '/' = 2 → ∃ d2, connectorImport d = (d2, .ok [d2])) ∧
    (∀ d0 : ResourceData, d0.id = "a/b" →
      connectorImport d0 = (d0, .error importFormatError)) := by
  have hlen := stringsSplitSlash_length d.id
  have hbad : (stringsSplitSlash d.id).length ≠ 3 →
      connectorImport d = (d, .error importFormatError) := connectorImport_of_not_three d
  have hgood : (stringsSplitSlash d.id).length = 3 →
      ∃ d2, connectorImport d = (d2, .ok [d2]) := by
    intro h
    match hs : stringsSplitSlash d.id, h with
    | [p0, p1, p2], _ => exact ⟨_, connectorImport_of_three d p0 p1 p2 hs⟩
  have main : (connectorImport d).2 = .error importFormatError ↔
      (stringsSplitSlash d.id).length ≠ 3 := by
    constructor
    · intro herr h3
      obtain ⟨d2, h2⟩ := hgood h3
      rw [h2] at herr
      cases herr
    · intro h
      rw [hbad h]
  refine ⟨?_, main, ?_, ?_, ?_⟩
  · rw [main, hlen]; omega
  · intro h; apply hbad; rw [hlen]; omega
  · intro h; apply hgood; rw [hlen]; omega
  · intro d0 h0
    apply connectorImport_of_not_three
    rw [h0]
    decide

/-! ## Lemmas on the retry loop -/

theorem retryContext_timeout {σ : Type} (now : σ → Nat) (deadline : Nat)
    (f : σ → σ × Option RetryError) (fuel : Nat) (last : Option String) (s : σ)
    (h : deadline ≤ now s) :
    retryContext now deadline f (fuel + 1) last s =
      (s, some (some (last.getD retryTimeoutMessage))) := by
  simp [retryContext, h]

theorem retryContext_done {σ : Type} (now : σ → Nat) (deadline : Nat)
    (f : σ → σ × Option RetryError) (fuel : Nat) (last : Option String) (s s1 : σ)
    (h : now s < deadline) (hf : f s = (s1, none)) :
    retryContext now deadline f (fuel + 1) last s = (s1, some none) := by
  have h2 : ¬ deadline ≤ now s := by omega
  simp [retryContext, h2, hf]

theorem retryContext_nonRetryable {σ : Type} (now : σ → Nat) (deadline : Nat)
    (f : σ → σ × Option RetryError) (fuel : Nat) (last : Option String) (s s1 : σ)
    (e : String) (h : now s < deadline) (hf : f s = (s1, some (RetryError.nonRetryable e))) :
    retryContext now deadline f (fuel + 1) last s = (s1, some (some e)) := by
  have h2 : ¬ deadline ≤ now s := by omega
  simp [retryContext, h2, hf]

theorem retryContext_retryable {σ : Type} (now : σ → Nat) (deadline : Nat)
    (f : σ → σ × Option RetryError) (fuel : Nat) (last : Option String) (s s1 : σ)
    (e : String) (h : now s < deadline) (hf : f s = (s1, some (RetryError.retryable e))) :
    retryContext now deadline f (fuel + 1) last s =
      retryContext now deadline f fuel (some e) s1 := by
  have h2 : ¬ deadline ≤ now s := by omega
  simp [retryContext, h2, hf]

/-- A property of the state that every attempt started before the deadline preserves
holds of the state the loop ends in. -/
theorem retryContext_invariant {σ : Type} (now : σ → Nat) (deadline : Nat)
    (f : σ → σ × Option RetryError) (P : σ → Prop)
    (hstep : ∀ s, P s → now s < deadline → P (f s).1) :
    ∀ (fuel : Nat) (last : Option String) (s : σ), P s →
      P (retryContext now deadline f fuel last s).1 := by
  intro fuel
  induction fuel with
  | zero => intro last s hs; simpa [retryContext] using hs
  | succ fuel ih =>
    intro last s hs
    by_cases h : deadline ≤ now s
    · rw [retryContext_timeout now deadline f fuel last s h]; exact hs
    · have hlt : now s < deadline := by omega
      have hP := hstep s hs hlt
      rcases hfs : f s with ⟨s1, _ | (e | e)⟩
      · rw [retryContext_done now deadline f fuel last s s1 hlt hfs]
        rw [hfs] at hP; exact hP
      · rw [retryContext_retryable now deadline f fuel last s s1 e hlt hfs]
        rw [hfs] at hP; exact ih _ _ hP
      · rw [retryContext_nonRetryable now deadline f fuel last s s1 e hlt hfs]
        rw [hfs] at hP; exact hP

/-! ## C8: the merged configuration -/

/-- Every `CreateConnector` call made by `connectorCreate` carries the same arguments:
the three identifiers and the merged configuration. -/
theorem connectorCreate_calls (c : ConnectorClient) (fuel : Nat) (d : ResourceData) :
    ∃ n : Nat, (connectorCreate c fuel d).1.calls =
      List.replicate n ⟨d.environment_id, d.cluster_id, d.name,
        mergeConfig d.config d.config_sensitive⟩ := by
  unfold connectorCreate
  dsimp only
  refine retryContext_invariant CreateWorld.clock d.timeoutCreate _
    (fun s => ∃ n : Nat, s.calls = List.replicate n ⟨d.environment_id, d.cluster_id, d.name,
        mergeConfig d.config d.config_sensitive⟩) ?_ fuel none _ ⟨0, rfl⟩
  rintro s ⟨n, hn⟩ -
  refine ⟨n + 1, ?_⟩
  have hcalls : ∀ (x : ConnectorCall), List.replicate n x ++ [x] = List.replicate (n + 1) x :=
    fun x => by rw [List.replicate_succ']
  unfold createStep
  dsimp only
  split
  · split <;> simp [hn, hcalls]
  · simp [hn, hcalls]

theorem connectorCreate_eq (c : ConnectorClient) (fuel : Nat) (d : ResourceData) :
    connectorCreate c fuel d =
      ((retryContext CreateWorld.clock d.timeoutCreate (createStepOf c d) fuel none
          { d := d, clock := 0, calls := [] }).1,
        (retryContext CreateWorld.clock d.timeoutCreate (createStepOf c d) fuel none
          { d := d, clock := 0, calls := [] }).2.map diagFromErr) := rfl

theorem createStepOf_success (c : ConnectorClient) (d : ResourceData) (s : CreateWorld)
    (h : c.createConnector s.calls.length (createCallOf d) = none) :
    createStepOf c d s =
      ({ d := s.d.setId d.name, clock := s.clock + c.createLatency s.calls.length,
         calls := s.calls ++ [createCallOf d] }, none) := by
  unfold createStepOf createStep
  unfold createCallOf at h
  simp [h, createCallOf]

theorem createStepOf_retryable (c : ConnectorClient) (d : ResourceData) (s : CreateWorld)
    (e : String) (h : c.createConnector s.calls.length (createCallOf d) = some e)
    (he : stringsContains e "provisioning" = true) :
    createStepOf c d s =
      ({ d := s.d, clock := s.clock + c.createLatency s.calls.length,
         calls := s.calls ++ [createCallOf d] },
       some (RetryError.retryable
        "API Key is still being provisioned, waiting for provisioning")) := by
  unfold createStepOf createStep
  unfold createCallOf at h
  simp [h, he, createCallOf]

theorem createStepOf_nonRetryable (c : ConnectorClient) (d : ResourceData) (s : CreateWorld)
    (e : String) (h : c.createConnector s.calls.length (createCallOf d) = some e)
    (he : stringsContains e "provisioning" = false) :
    createStepOf c d s =
      ({ d := s.d, clock := s.clock + c.createLatency s.calls.length,
         calls := s.calls ++ [createCallOf d] },
       some (RetryError.nonRetryable (createFailedMessage d.name d.config e))) := by
  unfold createStepOf createStep
  unfold createCallOf at h
  simp [h, he, createCallOf]

/-- A run of `j` provisioning errors that fits before the deadline: the loop makes `j`
calls and is then about to make the next attempt, with the descriptor untouched. -/
theorem createLoop_advance (c : ConnectorClient) (d : ResourceData) (deadline : Nat)
    (j : Nat) :
    ∀ (fuel : Nat) (last : Option String) (s : CreateWorld), j ≤ fuel →
      (∀ i < j, ∃ e, c.createConnector (s.calls.length + i) (createCallOf d) = some e ∧
        stringsContains e "provisioning" = true) →
      s.clock + ∑ t in Finset.range j, c.createLatency (s.calls.length + t) < deadline →
      ∃ (s1 : CreateWorld) (last1 : Option String),
        retryContext CreateWorld.clock deadline (createStepOf c d) fuel last s =
          retryContext CreateWorld.clock deadline (createStepOf c d) (fuel - j) last1 s1 ∧
        s1.calls.length = s.calls.length + j ∧ s1.d = s.d ∧
        s1.clock = s.clock + ∑ t in Finset.range j, c.createLatency (s.calls.length + t) := by
  induction j with
  | zero =>
    intro fuel last s _ _ _
    exact ⟨s, last, rfl, rfl, rfl, by simp⟩
  | succ j ih =>
    intro fuel last s hfuel hprov htime
    obtain ⟨fuel, rfl⟩ : ∃ f, fuel = f + 1 := ⟨fuel - 1, by omega⟩
    rw [Finset.sum_range_succ'] at htime
    obtain ⟨e, he, hc⟩ := hprov 0 (by omega)
    have hnow : CreateWorld.clock s < deadline := by
      simp only [Nat.add_zero] at htime
      omega
    have hstep := createStepOf_retryable c d s e he hc
    rw [retryContext_retryable CreateWorld.clock deadline _ fuel last s _ _ hnow hstep]
    obtain ⟨s1, last1, h1, h2, h3, h4⟩ := ih fuel
      (some "API Key is still being provisioned, waiting for provisioning")
      { d := s.d, clock := s.clock + c.createLatency s.calls.length,
        calls := s.calls ++ [createCallOf d] } (by omega)
      (by
        intro i hi
        obtain ⟨e2, h21, h22⟩ := hprov (i + 1) (by omega)
        refine ⟨e2, ?_, h22⟩
        rw [← h21]
        simp only [List.length_append, List.length_singleton]
        congr 1
        omega)
      (by
        simp only [List.length_append, List.length_singleton, Nat.add_zero] at htime ⊢
        have : ∀ t, c.createLatency (s.calls.length + 1 + t) =
            c.createLatency (s.calls.length + (t + 1)) := fun t => by congr 1; omega
        simp only [this]
        omega)
    refine ⟨s1, last1, ?_, ?_, ?_, ?_⟩
    · rw [h1, Nat.add_sub_add_right]
    · rw [h2]; simp only [List.length_append, List.length_singleton]; omega
    · rw [h3]
    · rw [h4, Finset.sum_range_succ']
      simp only [List.length_append, List.length_singleton, Nat.add_zero]
      have : ∀ t, c.createLatency (s.calls.length + 1 + t) =
          c.createLatency (s.calls.length + (t + 1)) := fun t => by congr 1; omega
      simp only [this]
      omega

/-- After `k` provisioning errors within the timeout, a success on call `k` ends
`connectorCreate` with no error after `k + 1` calls and the identifier set to the name. -/
theorem connectorCreate_success_after (c : ConnectorClient) (d : ResourceData)
    (k fuel : Nat) (hfuel : k < fuel)
    (hprov : ∀ i < k, ∃ e, c.createConnector i (createCallOf d) = some e ∧
      stringsContains e "provisioning" = true)
    (htime : ∑ t in Finset.range k, c.createLatency t < d.timeoutCreate)
    (hk : c.createConnector k (createCallOf d) = none) :
    (connectorCreate c fuel d).2 = some [] ∧
    (connectorCreate c fuel d).1.calls.length = k + 1 ∧
    (connectorCreate c fuel d).1.d = d.setId d.name := by
  obtain ⟨s1, last1, h1, h2, h3, h4⟩ := createLoop_advance c d d.timeoutCreate k fuel none
    { d := d, clock := 0, calls := [] } (by omega)
    (by simpa using hprov) (by simpa using htime)
  obtain ⟨f, hf⟩ : ∃ f, fuel - k = f + 1 := ⟨fuel - k - 1, by omega⟩
  simp only [List.length_nil, Nat.zero_add] at h2 h4
  have hnow : CreateWorld.clock s1 < d.timeoutCreate := by rw [h4]; exact htime
  have hstep := createStepOf_success c d s1 (by rw [h2]; exact hk)
  rw [connectorCreate_eq, h1, hf,
    retryContext_done CreateWorld.clock d.timeoutCreate _ f last1 s1 _ hnow hstep]
  refine ⟨rfl, ?_, ?_⟩
  · simp [h2]
  · simp [h3]

/-- After `k` provisioning errors within the timeout, an error on call `k` that is not
about provisioning ends `connectorCreate` after `k + 1` calls with the wrapped error. -/
theorem connectorCreate_terminal_after (c : ConnectorClient) (d : ResourceData)
    (k fuel : Nat) (hfuel : k < fuel)
    (hprov : ∀ i < k, ∃ e, c.createConnector i (createCallOf d) = some e ∧
      stringsContains e "provisioning" = true)
    (htime : ∑ t in Finset.range k, c.createLatency t < d.timeoutCreate)
    (e : String) (hk : c.createConnector k (createCallOf d) = some e)
    (he : stringsContains e "provisioning" = false) :
    (connectorCreate c fuel d).2 = some [createFailedMessage d.name d.config e] ∧
    (connectorCreate c fuel d).1.calls.length = k + 1 ∧
    (connectorCreate c fuel d).1.d = d := by
  obtain ⟨s1, last1, h1, h2, h3, h4⟩ := createLoop_advance c d d.timeoutCreate k fuel none
    { d := d, clock := 0, calls := [] } (by omega)
    (by simpa using hprov) (by simpa using htime)
  obtain ⟨f, hf⟩ : ∃ f, fuel - k = f + 1 := ⟨fuel - k - 1, by omega⟩
  simp only [List.length_nil, Nat.zero_add] at h2 h4
  have hnow : CreateWorld.clock s1 < d.timeoutCreate := by rw [h4]; exact htime
  have hstep := createStepOf_nonRetryable c d s1 e (by rw [h2]; exact hk) he
  rw [connectorCreate_eq, h1, hf,
    retryContext_nonRetryable CreateWorld.clock d.timeoutCreate _ f last1 s1 _ _ hnow hstep]
  refine ⟨rfl, ?_, ?_⟩
  · simp [h2]
  · simp [h3]

/-- C4: in the retry step of `connectorCreate`, an error containing `provisioning` is
retryable, any other error is non-retryable, and a success ends the loop.  After `k`
provisioning errors within the timeout, a success on the next call ends the create with no
error after exactly `k + 1` calls, and an error that is not about provisioning ends it
with an error after exactly `k + 1` calls. -/
theorem connectorCreate_retry (c : ConnectorClient) (d : ResourceData) (k fuel : Nat)
    (hfuel : k < fuel)
    (hprov : ∀ i < k, ∃ e, c.createConnector i (createCallOf d) = some e ∧
      stringsContains e "provisioning" = true)
    (htime : ∑ t in Finset.range k, c.createLatency t < d.timeoutCreate) :
    (∀ (s : CreateWorld) (e : String),
      c.createConnector s.calls.length (createCallOf d) = some e →
      stringsContains e "provisioning" = true →
      ∃ msg, (createStepOf c d s).2 = some (RetryError.retryable msg)) ∧
    (∀ (s : CreateWorld) (e : String),
      c.createConnector s.calls.length (createCallOf d) = some e →
      stringsContains e "provisioning" = false →
      ∃ msg, (createStepOf c d s).2 = some (RetryError.nonRetryable msg)) ∧
    (∀ s : CreateWorld, c.createConnector s.calls.length (createCallOf d) = none →
      (createStepOf c d s).2 = none) ∧
    (c.createConnector k (createCallOf d) = none →
      (connectorCreate c fuel d).2 = some [] ∧
      (connectorCreate c fuel d).1.calls.length = k + 1 ∧
      (connectorCreate c fuel d).1.d.id = d.name) ∧
    (∀ e : String, c.createConnector k (createCallOf d) = some e →
      stringsContains e "provisioning" = false →
      (∃ msg, (connectorCreate c fuel d).2 = some [msg]) ∧
      (connectorCreate c fuel d).1.calls.length = k + 1) := by
  refine ⟨?_, ?_, ?_, ?_, ?_⟩
  · intro s e h he
    exact ⟨_, by rw [createStepOf_retryable c d s e h he]⟩
  · intro s e h he
    exact ⟨_, by rw [createStepOf_nonRetryable c d s e h he]⟩
  · intro s h
    rw [createStepOf_success c d s h]
  · intro hk
    obtain ⟨h1, h2, h3⟩ := connectorCreate_success_after c d k fuel hfuel hprov htime hk
    exact ⟨h1, h2, by rw [h3]; rfl⟩
  · intro e hk he
    obtain ⟨h1, h2, _⟩ := connectorCreate_terminal_after c d k fuel hfuel hprov htime e hk he
    exact ⟨⟨_, h1⟩, h2⟩

theorem clientProvisioningTwice_prov : ∀ i < 2,
    ∃ e, clientProvisioningTwice.createConnector i (createCallOf sampleConnector) = some e ∧
      stringsContains e "provisioning" = true := by
  intro i hi
  exact ⟨"cluster is still provisioning", by simp [clientProvisioningTwice, hi], by decide⟩

theorem clientProvisioningTwice_time :
    ∑ t in Finset.range 2, clientProvisioningTwice.createLatency t <
      sampleConnector.timeoutCreate := by
  simp [clientProvisioningTwice, sampleConnector, timeMinute, Finset.sum_range_succ]

/-- Witness for C4: two provisioning errors, then a success; three calls, no error. -/
theorem connectorCreate_retry_witness :
    (2 < 3 ∧
      (∀ i < 2, ∃ e,
        clientProvisioningTwice.createConnector i (createCallOf sampleConnector) = some e ∧
          stringsContains e "provisioning" = true) ∧
      ∑ t in Finset.range 2, clientProvisioningTwice.createLatency t <
        sampleConnector.timeoutCreate ∧
      clientProvisioningTwice.createConnector 2 (createCallOf sampleConnector) = none) ∧
    ((connectorCreate clientProvisioningTwice 3 sampleConnector).2 = some [] ∧
      (connectorCreate clientProvisioningTwice 3 sampleConnector).1.calls.length = 2 + 1 ∧
      (connectorCreate clientProvisioningTwice 3 sampleConnector).1.d.id =
        sampleConnector.name) :=
  ⟨⟨by decide, clientProvisioningTwice_prov, clientProvisioningTwice_time, rfl⟩,
    (connectorCreate_retry clientProvisioningTwice sampleConnector 2 3 (by decide)
      clientProvisioningTwice_prov clientProvisioningTwice_time).2.2.2.1 rfl⟩

/-- C10 as the code has it: a create error that is not about provisioning is returned as
exactly `createConnector failed <name>, <config>, <err>`, that is wrapped with the
connector name, the plain `config` attribute formatted with `%v` (it is `config`, not the
merged mapping, that is formatted into the message) and the underlying error, while the
mapping that was sent with every call is the merged one. -/
theorem connectorCreate_error_wrapping (c : ConnectorClient) (d : ResourceData)
    (k fuel : Nat) (e : String) (hfuel : k < fuel)
    (hprov : ∀ i < k, ∃ e, c.createConnector i (createCallOf d) = some e ∧
      stringsContains e "provisioning" = true)
    (htime : ∑ t in Finset.range k, c.createLatency t < d.timeoutCreate)
    (hk : c.createConnector k (createCallOf d) = some e)
    (he : stringsContains e "provisioning" = false) :
    (connectorCreate c fuel d).2 =
      some ["createConnector failed " ++ d.name ++ ", " ++ fmtMap d.config ++ ", " ++ e] ∧
    (∀ call ∈ (connectorCreate c fuel d).1.calls,
      call.config = mergeConfig d.config d.config_sensitive) := by
  refine ⟨(connectorCreate_terminal_after c d k fuel hfuel hprov htime e hk he).1, ?_⟩
  intro call hcall
  obtain ⟨n, hn⟩ := connectorCreate_calls c fuel d
  rw [hn] at hcall
  rw [List.eq_of_mem_replicate hcall]

/-- Witness for the amended C10: the first create is rejected with `boom`. -/
theorem connectorCreate_error_wrapping_witness :
    (0 < 1 ∧
      clientRejecting.createConnector 0 (createCallOf sampleConnector) = some "boom" ∧
      stringsContains "boom" "provisioning" = false) ∧
    ((connectorCreate clientRejecting 1 sampleConnector).2 =
      some ["createConnector failed " ++ sampleConnector.name ++ ", " ++
        fmtMap sampleConnector.config ++ ", " ++ "boom"] ∧
    (∀ call ∈ (connectorCreate clientRejecting 1 sampleConnector).1.calls,
      call.config = mergeConfig sampleConnector.config sampleConnector.config_sensitive)) :=
  ⟨⟨by decide, rfl, by decide⟩,
    connectorCreate_error_wrapping clientRejecting sampleConnector 0 1 "boom" (by decide)
      (fun i hi => absurd hi (Nat.not_lt_zero i)) (by decide) rfl (by decide)⟩

/-- C10 as stated fails: for the sample connector, whose merged mapping formats as
`map[password:hunter2 topic:orders]`, the returned error carries `map[topic:orders]`, the
formatting of `config`; it is not the wrapping of the merged mapping. -/
theorem connectorCreate_error_not_merged :
    (connectorCreate clientRejecting 1 sampleConnector).2 =
      some ["createConnector failed my-connector, map[topic:orders], boom"] ∧
    fmtMap (mergeConfig sampleConnector.config sampleConnector.config_sensitive) =
      "map[password:hunter2 topic:orders]" ∧
    ¬ (∀ (c : ConnectorClient) (d : ResourceData) (e : String),
      c.createConnector 0 (createCallOf d) = some e →
      stringsContains e "provisioning" = false → 0 < d.timeoutCreate →
      (connectorCreate c 1 d).2 =
        some [createFailedMessage d.name (mergeConfig d.config d.config_sensitive) e]) := by
  refine ⟨by decide, by decide, ?_⟩
  intro h
  have h2 := h clientRejecting sampleConnector "boom" rfl (by decide) (by decide)
  revert h2
  decide

/-! ## C9: read -/

/-- C9 as the code has it: `connectorRead` and `environmentRead` have no case for a remote
object that is not found; every error of the remote client, whatever it says, is returned
verbatim as the one diagnostic, and the descriptor (identifier included) is left as it
was. -/
theorem read_surfaces_every_error (e : String) :
    (∀ (getConnector : String → String → String → Except String Connector)
      (d : ResourceData),
      getConnector d.environment_id d.cluster_id d.id = .error e →
        connectorRead getConnector d = (d, [e])) ∧
    (∀ (getEnvironment : String → Except String Environment) (d : EnvironmentData),
      getEnvironment d.id = .error e → environmentRead getEnvironment d = (d, [e])) := by
  constructor
  · intro g d h
    unfold connectorRead
    simp [h, diagFromErr]
  · intro g d h
    unfold environmentRead
    simp [h, diagFromErr]

/-- C9 as stated fails: when the remote client answers `404 Not Found`, both reads return
that error verbatim and keep the identifier, and there is no error at all for which
either read does anything else than surface it verbatim. -/
theorem read_notFound_not_distinguished :
    connectorRead (fun _ _ _ => .error "404 Not Found") sampleConnector =
      (sampleConnector, ["404 Not Found"]) ∧
    (connectorRead (fun _ _ _ => .error "404 Not Found") sampleConnector).1.id =
      "my-connector" ∧
    environmentRead (fun _ => .error "404 Not Found") sampleEnvironment =
      (sampleEnvironment, ["404 Not Found"]) ∧
    (environmentRead (fun _ => .error "404 Not Found") sampleEnvironment).1.id = "env-1" ∧
    ¬ (∃ notFound : String,
        connectorRead (fun _ _ _ => .error notFound) sampleConnector ≠
          (sampleConnector, diagFromErr (some notFound)) ∨
        environmentRead (fun _ => .error notFound) sampleEnvironment ≠
          (sampleEnvironment, diagFromErr (some notFound))) := by
  refine ⟨rfl, rfl, rfl, rfl, ?_⟩
  rintro ⟨e, h | h⟩
  · exact h rfl
  · exact h rfl

/-! ## C5, C6, C7: login with backoff -/

/-- Loop invariants with a separate property for the state the loop ends in: `P` holds
whenever an attempt is about to start, `Q` holds of the final state. -/
theorem retryContext_invariant2 {σ : Type} (now : σ → Nat) (deadline : Nat)
    (f : σ → σ × Option RetryError) (P Q : σ → Prop)
    (hPQ : ∀ s, P s → Q s)
    (hretry : ∀ s s1 e, P s → now s < deadline →
      f s = (s1, some (RetryError.retryable e)) → P s1)
    (hdone : ∀ s s1, P s → now s < deadline → f s = (s1, none) → Q s1)
    (hfail : ∀ s s1 e, P s → now s < deadline →
      f s = (s1, some (RetryError.nonRetryable e)) → Q s1) :
    ∀ (fuel : Nat) (last : Option String) (s : σ), P s →
      Q (retryContext now deadline f fuel last s).1 := by
  intro fuel
  induction fuel with
  | zero => intro last s hs; simpa [retryContext] using hPQ s hs
  | succ fuel ih =>
    intro last s hs
    by_cases h : deadline ≤ now s
    · rw [retryContext_timeout now deadline f fuel last s h]; exact hPQ s hs
    · have hlt : now s < deadline := by omega
      rcases hfs : f s with ⟨s1, _ | (e | e)⟩
      · rw [retryContext_done now deadline f fuel last s s1 hlt hfs]
        exact hdone s s1 hs hlt hfs
      · rw [retryContext_retryable now deadline f fuel last s s1 e hlt hfs]
        exact ih _ _ (hretry s s1 e hs hlt hfs)
      · rw [retryContext_nonRetryable now deadline f fuel last s s1 e hlt hfs]
        exact hfail s s1 e hs hlt hfs

theorem wrapInt64_of_bounds (x : Int) (h1 : -9223372036854775808 ≤ x)
    (h2 : x < 9223372036854775808) : wrapInt64 x = x := by
  unfold wrapInt64
  norm_num
  omega

theorem timeSleepOf_small (wait r : Nat) (hw : wait ≤ 8589934592) (hr : r ≤ 1000) :
    timeSleepOf (wait : Int) r = ((wait * 1000000000 + r : Nat) : Int) := by
  unfold timeSleepOf timeSecond
  rw [wrapInt64_of_bounds ((wait : Int) * 1000000000) (by omega) (by omega)]
  rw [wrapInt64_of_bounds _ (by omega) (by omega)]
  push_cast
  rfl

theorem wrapInt64_double (p : Nat) (hp : p ≤ 1024) :
    wrapInt64 (((2 * p : Nat) : Int) * 2) = ((2 * (2 * p) : Nat) : Int) := by
  rw [wrapInt64_of_bounds _ (by omega) (by omega)]
  push_cast
  ring

theorem loginStep_success (c : LoginClient) (w : LoginWorld)
    (h : c.login w.loginCalls = none) :
    loginStep c w =
      ({ w with loginCalls := w.loginCalls + 1, clock := w.clock + c.latency w.loginCalls },
        none) := by
  unfold loginStep
  simp [h]

theorem loginStep_nonRetryable (c : LoginClient) (w : LoginWorld) (e : String)
    (h : c.login w.loginCalls = some e)
    (he : stringsContains e "Exceeded rate limit" = false) :
    loginStep c w =
      ({ w with loginCalls := w.loginCalls + 1, clock := w.clock + c.latency w.loginCalls },
        some (RetryError.nonRetryable e)) := by
  unfold loginStep
  simp [h, he]

theorem loginStep_retryable (c : LoginClient) (w : LoginWorld) (e : String)
    (h : c.login w.loginCalls = some e)
    (he : stringsContains e "Exceeded rate limit" = true) :
    loginStep c w =
      ({ clock := w.clock + c.latency w.loginCalls +
            (timeSleepOf w.wait (c.intn1001 w.draws).val).toNat
         loginCalls := w.loginCalls + 1
         wait := wrapInt64 (w.wait * 2)
         draws := w.draws + 1
         sleeps := w.sleeps ++ [timeSleepOf w.wait (c.intn1001 w.draws).val] },
        some (RetryError.retryable e)) := by
  unfold loginStep
  simp [h, he]

theorem loginLoopInv_final (c : LoginClient) (s : LoginWorld) (h : LoginLoopInv c s) :
    LoginFinal c s := by
  obtain ⟨_, h2, h3, _, h5, _, h7⟩ := h
  exact ⟨h3, h5, Or.inl h2, fun i h1 hi => h7 i h1 (by omega)⟩

theorem loginLoopInv_stop (c : LoginClient) (s : LoginWorld) (h : LoginLoopInv c s) :
    LoginFinal c
      { s with loginCalls := s.loginCalls + 1, clock := s.clock + c.latency s.loginCalls } := by
  obtain ⟨_, h2, h3, _, h5, _, h7⟩ := h
  exact ⟨h3, h5, Or.inr (by simp [h2]), fun i h1 hi => h7 i h1 (by simpa using hi)⟩

theorem loginLoopInv_retry (c : LoginClient) (s : LoginWorld) (e : String)
    (h : LoginLoopInv c s) (hnow : s.clock < c.latency 0 + 30 * timeMinute)
    (hl : c.login s.loginCalls = some e)
    (he : stringsContains e "Exceeded rate limit" = true) :
    LoginLoopInv c
      { clock := s.clock + c.latency s.loginCalls +
            (timeSleepOf s.wait (c.intn1001 s.draws).val).toNat
        loginCalls := s.loginCalls + 1
        wait := wrapInt64 (s.wait * 2)
        draws := s.draws + 1
        sleeps := s.sleeps ++ [timeSleepOf s.wait (c.intn1001 s.draws).val] } := by
  obtain ⟨h1, h2, h3, h4, h5, h6, h7⟩ := h
  have hpow : 2 ^ (s.sleeps.length + 1) = 2 * 2 ^ s.sleeps.length := by ring
  have hpow2 : 2 ^ (s.sleeps.length + 1 + 1) = 4 * 2 ^ s.sleeps.length := by ring
  have hr : (c.intn1001 s.sleeps.length).val ≤ 1000 := by
    have := (c.intn1001 s.sleeps.length).isLt
    omega
  have hp10 : 2 ^ s.sleeps.length ≤ 2 ^ 10 := Nat.pow_le_pow_right (by norm_num) h3
  have hn9 : s.sleeps.length ≤ 9 := by
    by_contra hcon
    have hge : 2 ^ 10 ≤ 2 ^ s.sleeps.length := Nat.pow_le_pow_right (by norm_num) (by omega)
    rw [hpow] at h6
    unfold timeMinute at hnow
    norm_num at hge
    omega
  have hsleep : timeSleepOf s.wait (c.intn1001 s.draws).val =
      ((2 * 2 ^ s.sleeps.length * 1000000000 + (c.intn1001 s.sleeps.length).val : Nat) : Int) := by
    rw [h4, h1]
    norm_num at hp10
    exact timeSleepOf_small (2 * 2 ^ s.sleeps.length) _ (by omega) hr
  have hwait : wrapInt64 (s.wait * 2) = ((2 * 2 ^ (s.sleeps.length + 1) : Nat) : Int) := by
    rw [h4, hpow]
    norm_num at hp10
    exact wrapInt64_double _ hp10
  rw [hsleep, hwait]
  refine ⟨?_, ?_, ?_, ?_, ?_, ?_, ?_⟩
  · simp [h1]
  · simp [h2]
  · simp only [List.length_append, List.length_singleton]; omega
  · simp
  · simp only [List.length_append, List.length_singleton]
    unfold doublingSleeps
    rw [List.range_succ, List.map_append]
    unfold doublingSleeps at h5
    rw [← h5]
    rfl
  · simp only [List.length_append, List.length_singleton, Int.toNat_ofNat]
    rw [hpow2]
    rw [hpow] at h6
    omega
  · intro i hi1 hi2
    simp only at hi2
    by_cases hi : i < s.loginCalls
    · exact h7 i hi1 hi
    · have : i = s.loginCalls := by omega
      subst this
      exact ⟨e, hl, he⟩

/-- The world `providerConfigure` ends in satisfies `LoginFinal`, for every remote, every
random source and every amount of fuel. -/
theorem providerConfigure_final (c : LoginClient) (fuel : Nat) :
    LoginFinal c (providerConfigure c fuel).1 := by
  have hinit : LoginLoopInv c
      { clock := c.latency 0, loginCalls := 1, wait := 2, draws := 0, sleeps := [] } := by
    refine ⟨rfl, rfl, by simp, rfl, rfl, by simp, ?_⟩
    intro i h1 h2
    simp only at h2
    omega
  unfold providerConfigure
  dsimp only
  split
  · exact loginLoopInv_final c _ hinit
  · refine retryContext_invariant2 LoginWorld.clock (c.latency 0 + 30 * timeMinute)
      (loginStep c) (LoginLoopInv c) (LoginFinal c) (loginLoopInv_final c) ?_ ?_ ?_
      fuel none _ hinit
    · intro s s1 e hs hnow hf
      rcases hl : c.login s.loginCalls with _ | e2
      · rw [loginStep_success c s hl] at hf; cases hf
      · rcases he : stringsContains e2 "Exceeded rate limit" with _ | _
        · rw [loginStep_nonRetryable c s e2 hl he] at hf; cases hf
        · have key := loginLoopInv_retry c s e2 hs hnow hl he
          rw [loginStep_retryable c s e2 hl he] at hf
          cases hf
          exact key
    · intro s s1 hs hnow hf
      rcases hl : c.login s.loginCalls with _ | e2
      · rw [loginStep_success c s hl] at hf
        cases hf
        exact loginLoopInv_stop c s hs
      · rcases he : stringsContains e2 "Exceeded rate limit" with _ | _
        · rw [loginStep_nonRetryable c s e2 hl he] at hf; cases hf
        · rw [loginStep_retryable c s e2 hl he] at hf; cases hf
    · intro s s1 e hs hnow hf
      rcases hl : c.login s.loginCalls with _ | e2
      · rw [loginStep_success c s hl] at hf; cases hf
      · rcases he : stringsContains e2 "Exceeded rate limit" with _ | _
        · rw [loginStep_nonRetryable c s e2 hl he] at hf
          cases hf
          exact loginLoopInv_stop c s hs
        · rw [loginStep_retryable c s e2 hl he] at hf; cases hf

theorem doublingSleeps_getElem (c : LoginClient) (n i : Nat) (hi : i < n) :
    (doublingSleeps c n)[i]? =
      some (2 * 2 ^ i * timeSecond + ((c.intn1001 i).val : Int)) := by
  unfold doublingSleeps timeSecond
  rw [List.getElem?_map, List.getElem?_range hi]
  simp

theorem doublingSleeps_pairwise (c : LoginClient) (n : Nat) :
    (doublingSleeps c n).Pairwise (fun a b => a < b) := by
  unfold doublingSleeps
  rw [List.pairwise_map]
  refine (List.pairwise_lt_range n).imp ?_
  intro a b hab
  have hpow : 2 ^ a < 2 ^ b := Nat.pow_lt_pow_right (by norm_num) hab
  have hr : (c.intn1001 a).val < 1001 := (c.intn1001 a).isLt
  exact Int.ofNat_lt.mpr (by omega)

/-- C7: in the login retry loop the sleep of the `n`-th rate-limited retry is `2 * 2 ^ n`
seconds plus the `n`-th draw, the sleeps are strictly increasing whatever the draws are,
every login of the loop that was followed by another one failed with a message containing
`Exceeded rate limit`, and a failure without that signature is non-retryable and causes
no sleep. -/
theorem login_backoff_doubling (c : LoginClient) (fuel : Nat) :
    (∀ n, n < (providerConfigure c fuel).1.sleeps.length →
      (providerConfigure c fuel).1.sleeps[n]? =
        some (2 * 2 ^ n * timeSecond + ((c.intn1001 n).val : Int))) ∧
    (providerConfigure c fuel).1.sleeps.Pairwise (fun a b => a < b) ∧
    (∀ i, 1 ≤ i → i + 1 < (providerConfigure c fuel).1.loginCalls →
      ∃ e, c.login i = some e ∧ stringsContains e "Exceeded rate limit" = true) ∧
    ((providerConfigure c fuel).1.loginCalls = (providerConfigure c fuel).1.sleeps.length + 1 ∨
      (providerConfigure c fuel).1.loginCalls =
        (providerConfigure c fuel).1.sleeps.length + 2) ∧
    (∀ (s : LoginWorld) (e : String), c.login s.loginCalls = some e →
      stringsContains e "Exceeded rate limit" = false →
      (loginStep c s).2 = some (RetryError.nonRetryable e) ∧
      (loginStep c s).1.sleeps = s.sleeps ∧ (loginStep c s).1.wait = s.wait) ∧
    (∀ (s : LoginWorld) (e : String), c.login s.loginCalls = some e →
      stringsContains e "Exceeded rate limit" = true →
      (loginStep c s).2 = some (RetryError.retryable e) ∧
      (loginStep c s).1.wait = wrapInt64 (s.wait * 2)) ∧
    (providerConfigure loginRateLimited 3).1.sleeps =
      [2000001000, 4000001000, 8000001000] := by
  obtain ⟨_, h2, h3, h4⟩ := providerConfigure_final c fuel
  refine ⟨?_, ?_, h4, h3, ?_, ?_, by decide⟩
  · intro n hn
    rw [h2]
    exact doublingSleeps_getElem c _ n hn
  · rw [h2]
    exact doublingSleeps_pairwise c _
  · intro s e hl he
    rw [loginStep_nonRetryable c s e hl he]
    exact ⟨rfl, rfl, rfl⟩
  · intro s e hl he
    rw [loginStep_retryable c s e hl he]
    exact ⟨rfl, rfl⟩

/-- C6, what the code does: the random draw is added to the wait as a number of
nanoseconds.  Every sleep of the loop is its base wait plus a jitter of at most 1000 ns,
far below one millisecond; with the seed wait of 2 s and the largest draw, 1000, the sleep
is 2.000001 s, not 2 s plus 1000 ms. -/
theorem login_jitter_nanoseconds (c : LoginClient) (fuel : Nat) :
    (∀ n, n < (providerConfigure c fuel).1.sleeps.length →
      ∃ j : Int, (providerConfigure c fuel).1.sleeps[n]? = some (2 * 2 ^ n * timeSecond + j) ∧
        j = ((c.intn1001 n).val : Int) ∧ 0 ≤ j ∧ j ≤ 1000 ∧ j < timeMillisecond) ∧
    (∀ r : Fin 1001, timeSleepOf 2 r.val = 2 * timeSecond + (r.val : Int) ∧
      timeSleepOf 2 r.val < 2 * timeSecond + timeMillisecond) ∧
    timeSleepOf 2 1000 = 2000001000 ∧
    timeSleepOf 2 1000 ≠ 2 * timeSecond + 1000 * timeMillisecond ∧
    (providerConfigure loginRateLimited 1).1.sleeps = [2000001000] := by
  obtain ⟨_, h2, _, _⟩ := providerConfigure_final c fuel
  refine ⟨?_, ?_, by decide, by decide, by decide⟩
  · intro n hn
    have hr : (c.intn1001 n).val < 1001 := (c.intn1001 n).isLt
    refine ⟨((c.intn1001 n).val : Int), ?_, rfl, by omega, by omega, ?_⟩
    · rw [h2]
      exact doublingSleeps_getElem c _ n hn
    · unfold timeMillisecond; omega
  · intro r
    have hr : r.val < 1001 := r.isLt
    have h := timeSleepOf_small 2 r.val (by omega) (by omega)
    have h2 : ((2 : Nat) : Int) = 2 := rfl
    rw [h2] at h
    rw [h]
    unfold timeSecond timeMillisecond
    push_cast
    constructor <;> omega

/-- C5, what the code does: when the first login fails (whatever its message) and the
second login fails with a message that does not contain `Exceeded rate limit`,
`providerConfigure` has called `Login` twice, never sleeps, and returns the second
error. -/
theorem providerConfigure_two_logins (c : LoginClient) (fuel : Nat) (e0 e1 : String)
    (h0 : c.login 0 = some e0) (h1 : c.login 1 = some e1)
    (hn : stringsContains e1 "Exceeded rate limit" = false) :
    (providerConfigure c (fuel + 1)).1.loginCalls = 2 ∧
    (providerConfigure c (fuel + 1)).1.sleeps = [] ∧
    (providerConfigure c (fuel + 1)).2 = some [e1] := by
  unfold providerConfigure
  simp only [h0]
  rw [retryContext_nonRetryable LoginWorld.clock _ (loginStep c) fuel none _ _ e1
    (by simp [timeMinute]) (loginStep_nonRetryable c _ e1 h1 hn)]
  exact ⟨rfl, rfl, rfl⟩

/-- Witness for C5: every login is rejected with `invalid credentials`; two logins. -/
theorem providerConfigure_two_logins_witness :
    (loginBadCredentials.login 0 = some "invalid credentials" ∧
      loginBadCredentials.login 1 = some "invalid credentials" ∧
      stringsContains "invalid credentials" "Exceeded rate limit" = false) ∧
    ((providerConfigure loginBadCredentials (0 + 1)).1.loginCalls = 2 ∧
      (providerConfigure loginBadCredentials (0 + 1)).1.sleeps = [] ∧
      (providerConfigure loginBadCredentials (0 + 1)).2 = some ["invalid credentials"]) :=
  ⟨⟨rfl, rfl, by decide⟩,
    providerConfigure_two_logins loginBadCredentials 0 "invalid credentials"
      "invalid credentials" rfl rfl (by decide)⟩

end Ccloud
